import Mathlib

/-!
Verification of the audio-synthesis core of `src/tools/audio_renderer.py`
(`AudioRenderer`).  The Python code is shallowly embedded over `ℚ`/`ℤ`:

* Python `int(x)` (truncation toward zero) is `pyint`.
* `np.clip` is `pyclip`; `round(x, 1)` is `pyround1` (round half to even,
  the semantics of Python's `round`; the binary-float representation of the
  argument is abstracted away, as everywhere below).
* The transcendental parts of the synthesiser are kept as parameters:
  `s : ℚ → ℚ` stands for `fun x => Real.sin (2 * π * x)` (every `np.sin`
  call in the source has the `2 * np.pi` factor) and `freqOf : ℤ → ℚ`
  stands for `midi_to_freq`, i.e. `fun n => 440 * 2 ^ ((n - 69) / 12)`.
  All theorems below hold for every instantiation of these parameters.
* `np.random.normal(0, sigma)` is modelled as `sigma * g k` where
  `g : ℕ → ℚ` is a stream of standard draws and `k` a running counter,
  one draw per generated frame, exactly as the source performs them.
* The sample buffer is a total function `ℤ → ℚ`, initially `0`; the two
  write loops mirror the source's `for i in range(...)` loops including
  the `break` bound check, the `+=` write of `_convert_midi_to_wav_direct`
  and the plain `=` write of `_create_musical_wav_from_notes`.
* File handling, base64 payloads and the Butterworth filter (`scipy`) are
  outside the per-sample claims below and are not modelled; the facade
  models the observable control flow of `render_staff_to_midi`.
-/

/-- Python `int(q)`: truncation toward zero. -/
def pyint (q : ℚ) : ℤ :=
  if 0 ≤ q then ⌊q⌋ else -⌊-q⌋

/-- `np.clip(x, lo, hi)`. -/
def pyclip (x lo hi : ℚ) : ℚ :=
  min (max x lo) hi

/-- Round to the nearest integer, halves to even (Python `round(_, 0)`). -/
def roundHalfEven (q : ℚ) : ℤ :=
  if q - (⌊q⌋ : ℚ) < 1/2 then ⌊q⌋
  else if 1/2 < q - (⌊q⌋ : ℚ) then ⌊q⌋ + 1
  else if ⌊q⌋ % 2 = 0 then ⌊q⌋ else ⌊q⌋ + 1

/-- Python `round(q, 1)`. -/
def pyround1 (q : ℚ) : ℚ :=
  ((roundHalfEven (q * 10) : ℚ)) / 10

/-- Python `max` over a list (the source only applies it to nonempty lists;
the `[]` default `0` is never reached there). -/
def pymax : List ℚ → ℚ
  | [] => 0
  | x :: xs => xs.foldl max x

/-- One harmonic partial of an instrument profile: the dict
`{'frequency_multiplier': _, 'amplitude': _}` of the source. -/
structure Harmonic where
  frequency_multiplier : ℚ
  amplitude : ℚ
deriving DecidableEq

/-- An instrument profile, the value type of `_get_instrument_parameters`. -/
structure InstrumentParams where
  fundamental_amplitude : ℚ
  harmonics : List Harmonic
  inharmonicity : ℚ
  noise_level : ℚ
  attack_time : ℚ
  decay_time : ℚ
  sustain_level : ℚ
  release_time : ℚ
  filter_cutoff : ℚ
  overall_amplitude : ℚ
deriving DecidableEq

/-- `default_params` of `_get_instrument_parameters` (piano-like). -/
def default_params : InstrumentParams where
  fundamental_amplitude := 0.4
  harmonics := [⟨2, 0.2⟩, ⟨3, 0.1⟩, ⟨4, 0.05⟩, ⟨5, 0.03⟩]
  inharmonicity := 1.001
  noise_level := 0.005
  attack_time := 0.02
  decay_time := 0.08
  sustain_level := 0.7
  release_time := 0.3
  filter_cutoff := 8000
  overall_amplitude := 0.3

/-- The `"Piano"` entry (built from `default_params` via `**default_params`). -/
def piano_params : InstrumentParams :=
  { default_params with
    fundamental_amplitude := 0.5
    harmonics := [⟨2, 0.25⟩, ⟨3, 0.15⟩, ⟨4, 0.08⟩, ⟨5, 0.04⟩]
    overall_amplitude := 0.4 }

/-- The `"Violin"` entry. -/
def violin_params : InstrumentParams where
  fundamental_amplitude := 0.6
  harmonics := [⟨2, 0.3⟩, ⟨3, 0.2⟩, ⟨4, 0.1⟩, ⟨5, 0.05⟩]
  inharmonicity := 1.0005
  noise_level := 0.003
  attack_time := 0.01
  decay_time := 0.05
  sustain_level := 0.8
  release_time := 0.4
  filter_cutoff := 12000
  overall_amplitude := 0.35

/-- The `"Guitar"` entry. -/
def guitar_params : InstrumentParams where
  fundamental_amplitude := 0.5
  harmonics := [⟨2, 0.3⟩, ⟨3, 0.2⟩, ⟨4, 0.1⟩, ⟨5, 0.05⟩]
  inharmonicity := 1.002
  noise_level := 0.008
  attack_time := 0.03
  decay_time := 0.1
  sustain_level := 0.6
  release_time := 0.5
  filter_cutoff := 6000
  overall_amplitude := 0.3

/-- The `"Flute"` entry. -/
def flute_params : InstrumentParams where
  fundamental_amplitude := 0.7
  harmonics := [⟨2, 0.4⟩, ⟨3, 0.2⟩, ⟨4, 0.1⟩]
  inharmonicity := 1.0001
  noise_level := 0.002
  attack_time := 0.05
  decay_time := 0.1
  sustain_level := 0.9
  release_time := 0.6
  filter_cutoff := 15000
  overall_amplitude := 0.25

/-- The `"Clarinet"` entry. -/
def clarinet_params : InstrumentParams where
  fundamental_amplitude := 0.6
  harmonics := [⟨2, 0.3⟩, ⟨3, 0.4⟩, ⟨4, 0.2⟩, ⟨5, 0.1⟩]
  inharmonicity := 1.0003
  noise_level := 0.004
  attack_time := 0.02
  decay_time := 0.08
  sustain_level := 0.8
  release_time := 0.3
  filter_cutoff := 10000
  overall_amplitude := 0.3

/-- The `"Trumpet"` entry. -/
def trumpet_params : InstrumentParams where
  fundamental_amplitude := 0.5
  harmonics := [⟨2, 0.4⟩, ⟨3, 0.3⟩, ⟨4, 0.2⟩, ⟨5, 0.1⟩]
  inharmonicity := 1.0002
  noise_level := 0.006
  attack_time := 0.01
  decay_time := 0.05
  sustain_level := 0.9
  release_time := 0.2
  filter_cutoff := 12000
  overall_amplitude := 0.4

/-- The `"Voice"` entry. -/
def voice_params : InstrumentParams where
  fundamental_amplitude := 0.6
  harmonics := [⟨2, 0.3⟩, ⟨3, 0.2⟩, ⟨4, 0.1⟩, ⟨5, 0.05⟩]
  inharmonicity := 1.0005
  noise_level := 0.01
  attack_time := 0.03
  decay_time := 0.1
  sustain_level := 0.7
  release_time := 0.4
  filter_cutoff := 8000
  overall_amplitude := 0.3

/-- `_get_instrument_parameters`: the dictionary lookup
`instrument_params.get(instrument, default_params)`. -/
def get_instrument_parameters (instrument : String) : InstrumentParams :=
  if instrument = "Music Theory" then default_params
  else if instrument = "Piano" then piano_params
  else if instrument = "Violin" then violin_params
  else if instrument = "Guitar" then guitar_params
  else if instrument = "Flute" then flute_params
  else if instrument = "Clarinet" then clarinet_params
  else if instrument = "Trumpet" then trumpet_params
  else if instrument = "Voice" then voice_params
  else default_params

/-- The per-sample quantisation of both WAV writers:
`audio_data = audio_data * 16384` followed by
`np.clip(audio_data, -32767, 32767).astype(np.int16)`.
After the clip every value is inside the `int16` range, so `astype`
truncates toward zero without wraparound, which `pyint` captures. -/
def quantize_sample (x : ℚ) : ℤ :=
  pyint (pyclip (x * 16384) (-32767) 32767)

theorem pyint_le_of_le {q : ℚ} {b : ℤ} (hb : 0 ≤ b) (h : q ≤ (b : ℚ)) (h' : (-b : ℚ) ≤ q) :
    -b ≤ pyint q ∧ pyint q ≤ b := by
  unfold pyint
  split
  · constructor
    · have h0 : (0:ℤ) ≤ ⌊q⌋ := Int.le_floor.mpr (by exact_mod_cast (by assumption : (0:ℚ) ≤ q))
      omega
    · have := Int.floor_le_floor h
      simpa using this.trans_eq (Int.floor_intCast b)
  · rename_i hq
    push_neg at hq
    constructor
    · have h1 : ⌊-q⌋ ≤ b := by
        have := Int.floor_le_floor (show -q ≤ (b:ℚ) by linarith)
        simpa using this.trans_eq (Int.floor_intCast b)
      omega
    · have h0 : (0:ℤ) ≤ ⌊-q⌋ := Int.le_floor.mpr (by push_cast; linarith)
      omega

/-- Claim C1: every sample written to the 16-bit PCM output lies in
`[-32767, 32767]`, produced by clipping (saturation) of the gain-scaled
float sample rather than wraparound; and every profile of the timbre table
has `overall_amplitude ≤ 1`. -/
theorem claim_C1_pcm_range_and_profile_amplitude :
    (∀ x : ℚ, -32767 ≤ quantize_sample x ∧ quantize_sample x ≤ 32767) ∧
    (∀ instrument : String,
      (get_instrument_parameters instrument).overall_amplitude ≤ 1) := by
  constructor
  · intro x
    unfold quantize_sample
    have h1 : pyclip (x * 16384) (-32767) 32767 ≤ ((32767 : ℤ) : ℚ) := by
      unfold pyclip; push_cast; exact min_le_right _ _
    have h2 : ((-(32767 : ℤ) : ℤ) : ℚ) ≤ pyclip (x * 16384) (-32767) 32767 := by
      unfold pyclip
      push_cast
      exact le_min (le_max_right _ _) (by norm_num)
    exact pyint_le_of_le (by norm_num) h1 (by push_cast at h2 ⊢; linarith)
  · intro instrument
    unfold get_instrument_parameters
    split_ifs <;>
      norm_num [default_params, piano_params, violin_params, guitar_params,
        flute_params, clarinet_params, trumpet_params, voice_params]

/-- A note event as produced by `_extract_midi_notes` and consumed by
`_convert_midi_to_wav_direct` (the dicts with keys
`note`, `velocity`, `start_time`, `duration`, `channel`). -/
structure MidiNote where
  note : ℕ
  velocity : ℕ
  start_time : ℚ
  duration : ℚ
  channel : ℕ
deriving DecidableEq

/-- A `mido` message as far as `_extract_midi_notes` inspects it:
its delta `time` in ticks and its type with payload. -/
inductive MidiMsg where
  | note_on (time : ℕ) (note : ℕ) (velocity : ℕ) (channel : ℕ)
  | note_off (time : ℕ) (note : ℕ) (channel : ℕ)
  | set_tempo (time : ℕ) (bpm : ℚ)
  | other (time : ℕ)
deriving DecidableEq

/-- `msg.time`. -/
def MidiMsg.timeOf : MidiMsg → ℕ
  | .note_on t _ _ _ => t
  | .note_off t _ _ => t
  | .set_tempo t _ => t
  | .other t => t

/-- The mutable state of `_extract_midi_notes` while scanning one track:
current tempo (persists across tracks in the source, since `tempo` is
declared outside the track loop), elapsed track time in seconds, the
`active_notes` dict (pitch → index of the pending entry in `notes`),
and the accumulated `notes` list. -/
structure TrackState where
  tempo : ℚ
  track_time : ℚ
  active : ℕ → Option ℕ
  notes : List MidiNote

/-- The `note_off`-or-`note_on`-with-velocity-0 branch of
`_extract_midi_notes`: look up the pending entry, set its duration to
`track_time - start_time` with the `< 0.1 → 0.5` floor, and delete the
pitch from `active_notes`.  Unknown pitches are ignored. -/
def closeNote (st : TrackState) (time : ℚ) (note : ℕ) : TrackState :=
  match st.active note with
  | some idx =>
    match st.notes[idx]? with
    | some nd =>
      let d := time - nd.start_time
      let d' := if d < 1/10 then (1:ℚ)/2 else d
      { st with track_time := time,
                notes := st.notes.set idx { nd with duration := d' },
                active := fun k => if k = note then none else st.active k }
    | none =>
      { st with track_time := time,
                active := fun k => if k = note then none else st.active k }
  | none => { st with track_time := time }

/-- One message step of `_extract_midi_notes`: the delta time is converted
to seconds with the *current* tempo before the message is dispatched
(so a `set_tempo` message's own delta still uses the previous tempo).
A `note_on` with positive velocity appends a pending entry with the
default duration `0.5` and records it in `active_notes`. -/
def stepMsg (ticks_per_beat : ℕ) (st : TrackState) (msg : MidiMsg) : TrackState :=
  let delta := (msg.timeOf : ℚ) / (ticks_per_beat : ℚ) * (60 / st.tempo)
  let time := st.track_time + delta
  match msg with
  | .set_tempo _ bpm => { st with tempo := bpm, track_time := time }
  | .note_on _ note velocity channel =>
    if 0 < velocity then
      { st with track_time := time,
                notes := st.notes ++ [⟨note, velocity, time, 1/2, channel⟩],
                active := fun k => if k = note then some st.notes.length else st.active k }
    else closeNote st time note
  | .note_off _ note _ => closeNote st time note
  | .other _ => { st with track_time := time }

/-- The track loop of `_extract_midi_notes`: `track_time` and
`active_notes` are reset per track, `tempo` and `notes` persist. -/
def processTracks (ticks_per_beat : ℕ) (tracks : List (List MidiMsg)) : TrackState :=
  tracks.foldl
    (fun st track =>
      track.foldl (stepMsg ticks_per_beat) { st with track_time := 0, active := fun _ => none })
    ⟨120, 0, fun _ => none, []⟩

/-- `_extract_midi_notes`.  The artifact is either a parse failure
(`ImportError` / any exception, both of which make the source return `[]`)
or the `ticks_per_beat` and the per-track message lists of the MIDI file.
If scanning yields no notes, the synthetic middle-C placeholder
(`note 60`, `velocity 100`, `start 0.0`, `duration 1.0`) is emitted. -/
def extract_midi_notes (artifact : Except Unit (ℕ × List (List MidiMsg))) : List MidiNote :=
  match artifact with
  | .error _ => []
  | .ok (tpb, tracks) =>
    let notes := (processTracks tpb tracks).notes
    if notes = [] then [⟨60, 100, 0, 1, 0⟩] else notes

/-- `msg.type == 'note_on' and msg.velocity > 0`. -/
def isNoteOnPos : MidiMsg → Bool
  | .note_on _ _ v _ => decide (0 < v)
  | _ => false

theorem closeNote_notes_length (st : TrackState) (time : ℚ) (note : ℕ) :
    (closeNote st time note).notes.length = st.notes.length := by
  unfold closeNote
  rcases h : st.active note with _ | idx
  · simp
  · rcases h2 : st.notes[idx]? with _ | nd
    · simp [h2]
    · simp [h2, List.length_set]

theorem stepMsg_notes_length (tpb : ℕ) (st : TrackState) (msg : MidiMsg) :
    (stepMsg tpb st msg).notes.length =
      st.notes.length + (if isNoteOnPos msg then 1 else 0) := by
  unfold stepMsg
  cases msg with
  | note_on t n v c =>
    by_cases hv : 0 < v
    · simp [hv, isNoteOnPos]
    · simp [hv, isNoteOnPos, closeNote_notes_length]
  | note_off t n c => simp [isNoteOnPos, closeNote_notes_length]
  | set_tempo t bpm => simp [isNoteOnPos]
  | other t => simp [isNoteOnPos]

theorem foldl_stepMsg_notes_length (tpb : ℕ) (msgs : List MidiMsg) :
    ∀ st : TrackState,
      ((msgs.foldl (stepMsg tpb) st).notes).length =
        st.notes.length + msgs.countP isNoteOnPos := by
  induction msgs with
  | nil => intro st; simp
  | cons m ms ih =>
    intro st
    rw [List.foldl_cons, ih, stepMsg_notes_length, List.countP_cons]
    by_cases h : isNoteOnPos m <;> simp [h]
    omega

theorem processTracks_notes_length (tpb : ℕ) (tracks : List (List MidiMsg)) :
    ((processTracks tpb tracks).notes).length =
      (tracks.map (fun tr => tr.countP isNoteOnPos)).sum := by
  unfold processTracks
  suffices h : ∀ st : TrackState,
      ((tracks.foldl
        (fun st track =>
          track.foldl (stepMsg tpb) { st with track_time := 0, active := fun _ => none })
        st).notes).length =
      st.notes.length + (tracks.map (fun tr => tr.countP isNoteOnPos)).sum by
    simpa using h ⟨120, 0, fun _ => none, []⟩
  induction tracks with
  | nil => intro st; simp
  | cons tr trs ih =>
    intro st
    rw [List.foldl_cons, ih, foldl_stepMsg_notes_length]
    simp; omega

/-- Claim C9 (amended): in the artifact-based extraction mode, unmatched
open notes are *not* dropped.  A `note_on` with positive velocity appends
its event to the emitted list immediately, so the number of emitted events
equals the number of positive-velocity `note_on` messages, with or without
matching `note_off`s; an unmatched open note stays in the list with the
default duration `0.5`. -/
theorem claim_C9_amended_noteons_counted :
    (∀ (tpb : ℕ) (tracks : List (List MidiMsg)),
      ((processTracks tpb tracks).notes).length =
        (tracks.map (fun tr => tr.countP isNoteOnPos)).sum) ∧
    (processTracks 480 [[.note_on 0 60 100 0]]).notes = [⟨60, 100, 0, 1/2, 0⟩] := by
  refine ⟨processTracks_notes_length, ?_⟩
  simp [processTracks, stepMsg, MidiMsg.timeOf]

/-- Claim C9 (counterexample): a track consisting of a single `note_on`
with no matching `note_off` — the spec says the open note is dropped and
does not appear in the emitted list, but `_extract_midi_notes` emits it
(with the default duration `0.5`). -/
theorem claim_C9_counterexample_unmatched_emitted :
    extract_midi_notes (.ok (480, [[.note_on 0 60 100 0]])) = [⟨60, 100, 0, 1/2, 0⟩] ∧
    (extract_midi_notes (.ok (480, [[.note_on 0 60 100 0]]))).length ≠ 0 := by
  constructor
  · simp [extract_midi_notes, processTracks, stepMsg, MidiMsg.timeOf]
  · simp [extract_midi_notes, processTracks, stepMsg, MidiMsg.timeOf]

/-- A component of the Abjad staff as far as `_extract_notes_from_staff`
inspects it: a `Note` (pitch number, written duration), a `Chord`
(pitch numbers, written duration) or a `Rest` (written duration). -/
inductive StaffComponent where
  | note (written_pitch : ℤ) (num den : ℕ)
  | chord (written_pitches : List ℤ) (num den : ℕ)
  | rest (num den : ℕ)
deriving DecidableEq

/-- An entry of the list returned by `_extract_notes_from_staff`
(`midi_note` is `None` for rests). -/
structure StaffNote where
  midi_note : Option ℤ
  duration : ℚ
  type : String
deriving DecidableEq

/-- `beats = 4 * duration.numerator / duration.denominator`. -/
def beats_of (num den : ℕ) : ℚ :=
  4 * (num : ℚ) / (den : ℚ)

/-- `_extract_notes_from_staff`: walk the staff in order; notes emit their
pitch, chords emit their first written pitch (and nothing when the chord
has no pitches, since `if component.written_pitches:` guards the emit),
rests emit a pitchless entry. -/
def extract_notes_from_staff : List StaffComponent → List StaffNote
  | [] => []
  | .note p n d :: cs =>
    ⟨some p, beats_of n d, "note"⟩ :: extract_notes_from_staff cs
  | .chord ps n d :: cs =>
    match ps with
    | [] => extract_notes_from_staff cs
    | p :: _ => ⟨some p, beats_of n d, "chord"⟩ :: extract_notes_from_staff cs
  | .rest n d :: cs =>
    ⟨none, beats_of n d, "rest"⟩ :: extract_notes_from_staff cs

/-- The beats-to-seconds conversion of `_create_musical_wav_from_notes`:
`beats_per_second = tempo / 60.0` and
`duration_seconds = duration_beats / beats_per_second`. -/
def duration_seconds (duration_beats tempo : ℚ) : ℚ :=
  duration_beats / (tempo / 60)

/-- Claim C4: in the direct-from-score mode, every emitted item's duration
in beats is `4 * numerator / denominator` of its written duration, and the
conversion to seconds is `beats / (tempo / 60)`; in particular a quarter
note (1/4) at 120 BPM lasts 0.5 s and a half note (1/2) at 60 BPM lasts
2.0 s. -/
theorem claim_C4_duration_conversion :
    (∀ (p : ℤ) (n d : ℕ) (cs : List StaffComponent),
      extract_notes_from_staff (.note p n d :: cs) =
        ⟨some p, beats_of n d, "note"⟩ :: extract_notes_from_staff cs) ∧
    (∀ (p : ℤ) (ps : List ℤ) (n d : ℕ) (cs : List StaffComponent),
      extract_notes_from_staff (.chord (p :: ps) n d :: cs) =
        ⟨some p, beats_of n d, "chord"⟩ :: extract_notes_from_staff cs) ∧
    (∀ (n d : ℕ) (cs : List StaffComponent),
      extract_notes_from_staff (.rest n d :: cs) =
        ⟨none, beats_of n d, "rest"⟩ :: extract_notes_from_staff cs) ∧
    duration_seconds (beats_of 1 4) 120 = 1/2 ∧
    duration_seconds (beats_of 1 2) 60 = 2 := by
  refine ⟨fun p n d cs => rfl, fun p ps n d cs => rfl, fun n d cs => rfl, ?_, ?_⟩ <;>
    norm_num [duration_seconds, beats_of]

theorem roundHalfEven_abs_le (q : ℚ) : |(roundHalfEven q : ℚ) - q| ≤ 1/2 := by
  unfold roundHalfEven
  have h1 : (⌊q⌋ : ℚ) ≤ q := Int.floor_le q
  have h2 : q < (⌊q⌋ : ℚ) + 1 := Int.lt_floor_add_one q
  split_ifs with ha hb hc <;> rw [abs_le] <;> constructor <;> push_cast <;> linarith

theorem pyround1_abs_le (q : ℚ) : |pyround1 q - q| ≤ 1/20 := by
  unfold pyround1
  have h := roundHalfEven_abs_le (q * 10)
  have he : ((roundHalfEven (q * 10) : ℚ)) / 10 - q =
      ((roundHalfEven (q * 10) : ℚ) - q * 10) / 10 := by ring
  rw [he, abs_div, show |(10 : ℚ)| = 10 by norm_num]
  linarith

/-- `_get_wav_duration`: `frames / sample_rate` rounded by
`round(duration, 1)`. -/
def get_wav_duration (frames sample_rate : ℕ) : ℚ :=
  pyround1 ((frames : ℚ) / (sample_rate : ℚ))

/-- Claim C5 (amended): the duration reported for an encoded file is
`frames / sample_rate` rounded (half to even) to one decimal place, hence
within 0.05 s of the exact value, but not exactly equal in general. -/
theorem claim_C5_amended_rounded_within_tolerance
    (frames sample_rate : ℕ) :
    |get_wav_duration frames sample_rate - (frames : ℚ) / (sample_rate : ℚ)| ≤ 1/20 :=
  pyround1_abs_le _

/-- Claim C5 (counterexample): a WAV file of 44123 frames at 44100 Hz is
reported as lasting 1.0 s, while `frames / sampleRate = 44123/44100 ≠ 1`,
so the reported duration is not exactly `frames / sampleRate`. -/
theorem claim_C5_counterexample_rounded_duration :
    get_wav_duration 44123 44100 = 1 ∧
    get_wav_duration 44123 44100 ≠ (44123 : ℚ) / 44100 := by
  constructor <;> norm_num [get_wav_duration, pyround1, roundHalfEven]

/-- The per-frame tone of both synthesis loops: fundamental, harmonic
partials, the fixed inharmonic term, and the additive noise draw.
`s x` stands for `np.sin(2 * np.pi * x)` and `nz` for the value of
`np.random.normal(0, noise_level)` at this frame.  `vel` is
`velocity / 127.0` in `_convert_midi_to_wav_direct` (which multiplies
every sinusoidal term by it, but not the noise) and `1` in
`_create_musical_wav_from_notes` (which has no velocity factor). -/
def toneAt (s : ℚ → ℚ) (p : InstrumentParams) (freq t vel nz : ℚ) : ℚ :=
  (p.harmonics.foldl
      (fun acc h => acc + s (freq * h.frequency_multiplier * t) * h.amplitude * vel)
      (0 + s (freq * t) * p.fundamental_amplitude * vel)
    + s (freq * 2 * t * p.inharmonicity) * (5/100) * vel) + nz

/-- The ADSR envelope of both synthesis loops at frame `i` of a note of
`df` frames: the phase lengths are `int(df * fraction)` and the branch
chain is exactly the source's `if i < attack ... elif ... else`. -/
def envelopeAt (p : InstrumentParams) (df : ℕ) (i : ℕ) : ℚ :=
  if (i : ℤ) < pyint ((df : ℚ) * p.attack_time) then
    (i : ℚ) / ((pyint ((df : ℚ) * p.attack_time) : ℚ))
  else if (i : ℤ) < pyint ((df : ℚ) * p.attack_time) + pyint ((df : ℚ) * p.decay_time) then
    1 - ((i : ℚ) - ((pyint ((df : ℚ) * p.attack_time) : ℚ)))
          / ((pyint ((df : ℚ) * p.decay_time) : ℚ)) * (1 - p.sustain_level)
  else if (i : ℤ) < (df : ℤ) - pyint ((df : ℚ) * p.release_time) then
    p.sustain_level
  else
    p.sustain_level *
      (1 - ((i : ℚ) - ((df : ℚ) - ((pyint ((df : ℚ) * p.release_time) : ℚ))))
            / ((pyint ((df : ℚ) * p.release_time) : ℚ)))

/-- The inner frame loop of `_convert_midi_to_wav_direct`
(`for i in range(duration_frames)` with the
`if start_frame + i >= total_frames: break` guard).  The state is the
sample buffer and the number of noise draws made so far; the write is
the source's accumulating `audio_data[start_frame + i] += ...`.
`fuel` is the number of remaining iterations (`df - i`). -/
def midiWriteLoop (s : ℚ → ℚ) (p : InstrumentParams) (freq vel : ℚ) (sf : ℤ)
    (df : ℕ) (tf : ℤ) (g : ℕ → ℚ) :
    ℕ → ℕ → ((ℤ → ℚ) × ℕ) → ((ℤ → ℚ) × ℕ)
  | 0, _, st => st
  | fuel + 1, i, st =>
    if tf ≤ sf + (i : ℤ) then st
    else
      midiWriteLoop s p freq vel sf df tf g fuel (i + 1)
        (fun j =>
          if j = sf + (i : ℤ) then
            st.1 j +
              toneAt s p freq (((sf : ℚ) + (i : ℚ)) / 44100) vel
                  (p.noise_level * g st.2) *
                envelopeAt p df i * p.overall_amplitude
          else st.1 j,
         st.2 + 1)

/-- Processing of one note of the event loop of
`_convert_midi_to_wav_direct`: note-off events (`velocity == 0`) are
skipped, otherwise the frame loop runs with
`start_frame = int(start_time * 44100)` and
`duration_frames = int(duration * 44100)`. -/
def midiNoteWrite (s : ℚ → ℚ) (freqOf : ℤ → ℚ) (p : InstrumentParams)
    (tf : ℤ) (g : ℕ → ℚ) (st : (ℤ → ℚ) × ℕ) (n : MidiNote) : (ℤ → ℚ) × ℕ :=
  if n.velocity = 0 then st
  else
    midiWriteLoop s p (freqOf (n.note : ℤ)) ((n.velocity : ℚ) / 127)
      (pyint (n.start_time * 44100)) (pyint (n.duration * 44100)).toNat tf g
      (pyint (n.duration * 44100)).toNat 0 st

/-- `total_frames = int(total_duration * sample_rate)` with
`total_duration = max(start_time + duration) + 0.5`. -/
def midiTotalFrames (notes : List MidiNote) : ℤ :=
  pyint ((pymax (notes.map (fun n => n.start_time + n.duration)) + 1/2) * 44100)

/-- The synthesis stage of `_convert_midi_to_wav_direct`: the zeroed
buffer of `total_frames` frames, then the event loop.  The buffer is a
total function on ℤ; frames at or beyond `total_frames` are never
written (see claim C7). -/
def midiSynthCore (s : ℚ → ℚ) (freqOf : ℤ → ℚ) (p : InstrumentParams)
    (notes : List MidiNote) (g : ℕ → ℚ) : (ℤ → ℚ) × ℕ :=
  notes.foldl (midiNoteWrite s freqOf p (midiTotalFrames notes) g) (fun _ => 0, 0)

/-- The inner frame loop of `_create_musical_wav_from_notes`: identical
shape to `midiWriteLoop` except that the write *assigns*
(`audio_data[current_frame + i] = ...`, not `+=`), there is no velocity
factor, and the constant `amplitude = 0.7` multiplies the sample. -/
def musicalWriteLoop (s : ℚ → ℚ) (p : InstrumentParams) (freq : ℚ) (cf : ℤ)
    (df : ℕ) (tf : ℤ) (g : ℕ → ℚ) :
    ℕ → ℕ → ((ℤ → ℚ) × ℕ) → ((ℤ → ℚ) × ℕ)
  | 0, _, st => st
  | fuel + 1, i, st =>
    if tf ≤ cf + (i : ℤ) then st
    else
      musicalWriteLoop s p freq cf df tf g fuel (i + 1)
        (fun j =>
          if j = cf + (i : ℤ) then
            toneAt s p freq (((cf : ℚ) + (i : ℚ)) / 44100) 1
                (p.noise_level * g st.2) *
              envelopeAt p df i * (7/10) * p.overall_amplitude
          else st.1 j,
         st.2 + 1)

/-- The state of the note loop of `_create_musical_wav_from_notes`:
buffer, noise-draw counter and the running `current_frame` cursor. -/
structure MusState where
  buf : ℤ → ℚ
  cnt : ℕ
  current_frame : ℤ

/-- Processing of one entry of `notes_data` in
`_create_musical_wav_from_notes`: rests are skipped with `continue`
*without* advancing `current_frame` (mirroring the source); otherwise
the frame loop runs at the cursor and the cursor advances by
`note_frames`. -/
def musicalNoteWrite (s : ℚ → ℚ) (freqOf : ℤ → ℚ) (p : InstrumentParams)
    (tf : ℤ) (bps : ℚ) (g : ℕ → ℚ) (st : MusState) (n : StaffNote) : MusState :=
  if n.type = "rest" then st
  else
    let note_frames := pyint ((n.duration / bps) * 44100)
    let r := musicalWriteLoop s p (freqOf (n.midi_note.getD 60)) st.current_frame
      note_frames.toNat tf g note_frames.toNat 0 (st.buf, st.cnt)
    ⟨r.1, r.2, st.current_frame + note_frames⟩

/-- The synthesis stage of `_create_musical_wav_from_notes`:
`beats_per_second = tempo / 60`,
`total_frames = int((total_duration / beats_per_second) * 44100)`,
zeroed buffer, then the note loop.  The instrument profile is fetched
per iteration in the source but is the same value each time, so it is
hoisted here. -/
def musicalSynthCore (s : ℚ → ℚ) (freqOf : ℤ → ℚ) (p : InstrumentParams)
    (notes_data : List StaffNote) (tempo total_duration : ℚ) (g : ℕ → ℚ) : MusState :=
  notes_data.foldl
    (musicalNoteWrite s freqOf p (pyint ((total_duration / (tempo / 60)) * 44100))
      (tempo / 60) g)
    ⟨fun _ => 0, 0, 0⟩

/-- `_create_musical_wav_from_notes` with the profile resolved from the
instrument name, as called by `_create_instrument_synthesis_fallback`,
which passes `total_duration = sum(note['duration'] for note in notes_data)`. -/
def fallback_synth (s : ℚ → ℚ) (freqOf : ℤ → ℚ) (instrument : String)
    (notes_data : List StaffNote) (tempo : ℚ) (g : ℕ → ℚ) : MusState :=
  musicalSynthCore s freqOf (get_instrument_parameters instrument) notes_data tempo
    ((notes_data.map (fun n => n.duration)).sum) g

theorem midiWriteLoop_frozen_ge (s : ℚ → ℚ) (p : InstrumentParams) (freq vel : ℚ)
    (sf : ℤ) (df : ℕ) (tf : ℤ) (g : ℕ → ℚ) :
    ∀ (fuel i : ℕ) (st : (ℤ → ℚ) × ℕ) (j : ℤ), tf ≤ j →
      (midiWriteLoop s p freq vel sf df tf g fuel i st).1 j = st.1 j := by
  intro fuel
  induction fuel with
  | zero => intro i st j hj; rfl
  | succ fuel ih =>
    intro i st j hj
    rw [midiWriteLoop]
    split
    · rfl
    · rename_i hlt
      rw [ih _ _ _ hj]
      have hne : j ≠ sf + (i : ℤ) := by omega
      simp [hne]

theorem musicalWriteLoop_frozen_ge (s : ℚ → ℚ) (p : InstrumentParams) (freq : ℚ)
    (cf : ℤ) (df : ℕ) (tf : ℤ) (g : ℕ → ℚ) :
    ∀ (fuel i : ℕ) (st : (ℤ → ℚ) × ℕ) (j : ℤ), tf ≤ j →
      (musicalWriteLoop s p freq cf df tf g fuel i st).1 j = st.1 j := by
  intro fuel
  induction fuel with
  | zero => intro i st j hj; rfl
  | succ fuel ih =>
    intro i st j hj
    rw [musicalWriteLoop]
    split
    · rfl
    · rename_i hlt
      rw [ih _ _ _ hj]
      have hne : j ≠ cf + (i : ℤ) := by omega
      simp [hne]

theorem midiNoteWrite_frozen_ge (s : ℚ → ℚ) (freqOf : ℤ → ℚ) (p : InstrumentParams)
    (tf : ℤ) (g : ℕ → ℚ) (st : (ℤ → ℚ) × ℕ) (n : MidiNote) (j : ℤ) (hj : tf ≤ j) :
    (midiNoteWrite s freqOf p tf g st n).1 j = st.1 j := by
  unfold midiNoteWrite
  split
  · rfl
  · exact midiWriteLoop_frozen_ge _ _ _ _ _ _ _ _ _ _ _ _ hj

theorem midiSynth_foldl_frozen_ge (s : ℚ → ℚ) (freqOf : ℤ → ℚ) (p : InstrumentParams)
    (tf : ℤ) (g : ℕ → ℚ) (notes : List MidiNote) :
    ∀ (st : (ℤ → ℚ) × ℕ) (j : ℤ), tf ≤ j →
      ((notes.foldl (midiNoteWrite s freqOf p tf g) st).1) j = st.1 j := by
  induction notes with
  | nil => intro st j hj; rfl
  | cons n ns ih =>
    intro st j hj
    rw [List.foldl_cons, ih _ _ hj, midiNoteWrite_frozen_ge _ _ _ _ _ _ _ _ hj]

theorem musicalNoteWrite_frozen_ge (s : ℚ → ℚ) (freqOf : ℤ → ℚ) (p : InstrumentParams)
    (tf : ℤ) (bps : ℚ) (g : ℕ → ℚ) (st : MusState) (n : StaffNote) (j : ℤ) (hj : tf ≤ j) :
    (musicalNoteWrite s freqOf p tf bps g st n).buf j = st.buf j := by
  unfold musicalNoteWrite
  split
  · rfl
  · exact musicalWriteLoop_frozen_ge _ _ _ _ _ _ _ _ _ _ _ hj

theorem musicalSynth_foldl_frozen_ge (s : ℚ → ℚ) (freqOf : ℤ → ℚ) (p : InstrumentParams)
    (tf : ℤ) (bps : ℚ) (g : ℕ → ℚ) (notes : List StaffNote) :
    ∀ (st : MusState) (j : ℤ), tf ≤ j →
      ((notes.foldl (musicalNoteWrite s freqOf p tf bps g) st).buf) j = st.buf j := by
  induction notes with
  | nil => intro st j hj; rfl
  | cons n ns ih =>
    intro st j hj
    rw [List.foldl_cons, ih _ _ hj, musicalNoteWrite_frozen_ge _ _ _ _ _ _ _ _ _ hj]

/-- Claim C7: in both synthesis loops every write index is guarded by the
`start_frame + i >= total_frames: break` check, so no frame at or beyond
the end of the buffer is ever written: the buffer stays `0` there for
every event list (writes past the end are silently dropped because the
frame loop stops). -/
theorem claim_C7_bounds_checked_writes :
    (∀ (s : ℚ → ℚ) (freqOf : ℤ → ℚ) (p : InstrumentParams)
        (notes : List MidiNote) (g : ℕ → ℚ) (j : ℤ),
      midiTotalFrames notes ≤ j → (midiSynthCore s freqOf p notes g).1 j = 0) ∧
    (∀ (s : ℚ → ℚ) (freqOf : ℤ → ℚ) (p : InstrumentParams)
        (notes_data : List StaffNote) (tempo total_duration : ℚ) (g : ℕ → ℚ) (j : ℤ),
      pyint ((total_duration / (tempo / 60)) * 44100) ≤ j →
        (musicalSynthCore s freqOf p notes_data tempo total_duration g).buf j = 0) := by
  constructor
  · intro s freqOf p notes g j hj
    exact midiSynth_foldl_frozen_ge s freqOf p _ g notes _ j hj
  · intro s freqOf p nd tempo total g j hj
    exact musicalSynth_foldl_frozen_ge s freqOf p _ _ g nd _ j hj

/-- Witness for claim C7 at concrete inputs: a 2-frame note starting at 0
fills a buffer of 22052 frames, and frame 22052 stays `0`; a 1-frame
fallback note in a 3-frame buffer leaves frame 3 at `0`. -/
theorem claim_C7_witness :
    midiTotalFrames [⟨60, 100, 0, 2/44100, 0⟩] ≤ 22052 ∧
    (midiSynthCore (fun x => x) (fun z => (z : ℚ)) default_params
        [⟨60, 100, 0, 2/44100, 0⟩] (fun _ => 0)).1 22052 = 0 ∧
    pyint (((1/44100 : ℚ) / (60 / 60)) * 44100) ≤ 3 ∧
    (musicalSynthCore (fun x => x) (fun z => (z : ℚ)) piano_params
        [⟨some 60, 1/44100, "note"⟩] 60 (1/44100) (fun _ => 0)).buf 3 = 0 := by
  have h1 : midiTotalFrames [⟨60, 100, 0, 2/44100, 0⟩] ≤ 22052 := by
    norm_num [midiTotalFrames, pymax, pyint]
  have h2 : pyint (((1/44100 : ℚ) / (60 / 60)) * 44100) ≤ 3 := by
    norm_num [pyint]
  exact ⟨h1, claim_C7_bounds_checked_writes.1 _ _ _ _ _ _ h1,
         h2, claim_C7_bounds_checked_writes.2 _ _ _ _ _ _ _ _ h2⟩

theorem midiWriteLoop_noise_free (s : ℚ → ℚ) (p : InstrumentParams) (freq vel : ℚ)
    (sf : ℤ) (df : ℕ) (tf : ℤ) (g1 g2 : ℕ → ℚ) (hp : p.noise_level = 0) :
    ∀ (fuel i : ℕ) (st : (ℤ → ℚ) × ℕ),
      midiWriteLoop s p freq vel sf df tf g1 fuel i st =
        midiWriteLoop s p freq vel sf df tf g2 fuel i st := by
  intro fuel
  induction fuel with
  | zero => intro i st; rfl
  | succ fuel ih =>
    intro i st
    rw [midiWriteLoop, midiWriteLoop]
    split
    · rfl
    · simp only [hp, zero_mul]
      exact ih _ _

theorem musicalWriteLoop_noise_free (s : ℚ → ℚ) (p : InstrumentParams) (freq : ℚ)
    (cf : ℤ) (df : ℕ) (tf : ℤ) (g1 g2 : ℕ → ℚ) (hp : p.noise_level = 0) :
    ∀ (fuel i : ℕ) (st : (ℤ → ℚ) × ℕ),
      musicalWriteLoop s p freq cf df tf g1 fuel i st =
        musicalWriteLoop s p freq cf df tf g2 fuel i st := by
  intro fuel
  induction fuel with
  | zero => intro i st; rfl
  | succ fuel ih =>
    intro i st
    rw [musicalWriteLoop, musicalWriteLoop]
    split
    · rfl
    · simp only [hp, zero_mul]
      exact ih _ _

theorem midiNoteWrite_noise_free (s : ℚ → ℚ) (freqOf : ℤ → ℚ) (p : InstrumentParams)
    (tf : ℤ) (g1 g2 : ℕ → ℚ) (hp : p.noise_level = 0) (st : (ℤ → ℚ) × ℕ) (n : MidiNote) :
    midiNoteWrite s freqOf p tf g1 st n = midiNoteWrite s freqOf p tf g2 st n := by
  unfold midiNoteWrite
  split
  · rfl
  · exact midiWriteLoop_noise_free _ _ _ _ _ _ _ _ _ hp _ _ _

theorem musicalNoteWrite_noise_free (s : ℚ → ℚ) (freqOf : ℤ → ℚ) (p : InstrumentParams)
    (tf : ℤ) (bps : ℚ) (g1 g2 : ℕ → ℚ) (hp : p.noise_level = 0) (st : MusState) (n : StaffNote) :
    musicalNoteWrite s freqOf p tf bps g1 st n = musicalNoteWrite s freqOf p tf bps g2 st n := by
  unfold musicalNoteWrite
  split
  · rfl
  · have h := musicalWriteLoop_noise_free s p (freqOf (n.midi_note.getD 60))
      st.current_frame (pyint (n.duration / bps * 44100)).toNat tf g1 g2 hp
    simp only [h]

theorem midiSynth_foldl_noise_free (s : ℚ → ℚ) (freqOf : ℤ → ℚ) (p : InstrumentParams)
    (tf : ℤ) (g1 g2 : ℕ → ℚ) (hp : p.noise_level = 0) (notes : List MidiNote) :
    ∀ st, notes.foldl (midiNoteWrite s freqOf p tf g1) st =
      notes.foldl (midiNoteWrite s freqOf p tf g2) st := by
  have hf : midiNoteWrite s freqOf p tf g1 = midiNoteWrite s freqOf p tf g2 :=
    funext fun st => funext fun n => midiNoteWrite_noise_free s freqOf p tf g1 g2 hp st n
  intro st
  rw [hf]

theorem musicalSynth_foldl_noise_free (s : ℚ → ℚ) (freqOf : ℤ → ℚ) (p : InstrumentParams)
    (tf : ℤ) (bps : ℚ) (g1 g2 : ℕ → ℚ) (hp : p.noise_level = 0) (notes : List StaffNote) :
    ∀ st, notes.foldl (musicalNoteWrite s freqOf p tf bps g1) st =
      notes.foldl (musicalNoteWrite s freqOf p tf bps g2) st := by
  have hf : musicalNoteWrite s freqOf p tf bps g1 = musicalNoteWrite s freqOf p tf bps g2 :=
    funext fun st => funext fun n => musicalNoteWrite_noise_free s freqOf p tf bps g1 g2 hp st n
  intro st
  rw [hf]

/-- Claim C8 (amended): the synthesis cores are deterministic functions of
(events, profile, noise draws): with the per-frame Gaussian noise term
zeroed (`noise_level = 0`) the output is independent of the noise stream;
but the cores draw noise per generated frame, and every profile of the
timbre table has `noise_level > 0`, so two runs with different draws are
not identical (see the counterexample). -/
theorem claim_C8_amended_pure_given_noise :
    (∀ (s : ℚ → ℚ) (freqOf : ℤ → ℚ) (p : InstrumentParams)
        (notes : List MidiNote) (g1 g2 : ℕ → ℚ), p.noise_level = 0 →
        midiSynthCore s freqOf p notes g1 = midiSynthCore s freqOf p notes g2) ∧
    (∀ (s : ℚ → ℚ) (freqOf : ℤ → ℚ) (p : InstrumentParams)
        (notes_data : List StaffNote) (tempo total_duration : ℚ) (g1 g2 : ℕ → ℚ),
        p.noise_level = 0 →
        musicalSynthCore s freqOf p notes_data tempo total_duration g1 =
          musicalSynthCore s freqOf p notes_data tempo total_duration g2) ∧
    (∀ instrument : String, 0 < (get_instrument_parameters instrument).noise_level) := by
  refine ⟨?_, ?_, ?_⟩
  · intro s freqOf p notes g1 g2 hp
    exact midiSynth_foldl_noise_free s freqOf p _ g1 g2 hp notes _
  · intro s freqOf p nd tempo total g1 g2 hp
    exact musicalSynth_foldl_noise_free s freqOf p _ _ g1 g2 hp nd _
  · intro instrument
    unfold get_instrument_parameters
    split_ifs <;>
      norm_num [default_params, piano_params, violin_params, guitar_params,
        flute_params, clarinet_params, trumpet_params, voice_params]

/-- Witness for claim C8 (amended): with a zero-noise profile the direct
synthesis core gives the same state for two different noise streams, and
the table's default profile has positive noise level. -/
theorem claim_C8_amended_witness :
    ({ default_params with noise_level := 0 } : InstrumentParams).noise_level = 0 ∧
    midiSynthCore (fun x => x) (fun z => (z : ℚ)) { default_params with noise_level := 0 }
        [⟨60, 100, 0, 2/44100, 0⟩] (fun _ => 0) =
      midiSynthCore (fun x => x) (fun z => (z : ℚ)) { default_params with noise_level := 0 }
        [⟨60, 100, 0, 2/44100, 0⟩] (fun _ => 1) ∧
    0 < (get_instrument_parameters "Music Theory").noise_level := by
  refine ⟨rfl, ?_, ?_⟩
  · exact claim_C8_amended_pure_given_noise.1 _ _ _ _ _ _ rfl
  · exact claim_C8_amended_pure_given_noise.2.2 "Music Theory"

/-- Claim C8 (counterexample): the synthesis core is *not* a pure function
of the note list and profile alone: with the default profile
(`noise_level = 0.005`) two runs that receive different per-frame noise
draws produce different buffers — the value at frame 1 of a 2-frame
middle-C note is `0` for the all-zeros draw stream and `21/20000` for the
all-ones stream. -/
theorem claim_C8_counterexample_noise_stream :
    (midiSynthCore (fun _ => 0) (fun _ => 0) default_params
        [⟨60, 100, 0, 2/44100, 0⟩] (fun _ => 0)).1 1 = 0 ∧
    (midiSynthCore (fun _ => 0) (fun _ => 0) default_params
        [⟨60, 100, 0, 2/44100, 0⟩] (fun _ => 1)).1 1 = 21/20000 ∧
    (0 : ℚ) ≠ 21/20000 := by
  refine ⟨?_, ?_, by norm_num⟩ <;>
    norm_num [midiSynthCore, midiNoteWrite, midiWriteLoop, midiTotalFrames, pymax,
      pyint, toneAt, envelopeAt, default_params, show Int.toNat 2 = 2 from rfl]

theorem pyint_nonneg {q : ℚ} (h : 0 ≤ q) : 0 ≤ pyint q := by
  unfold pyint
  rw [if_pos h]
  exact Int.le_floor.mpr (by push_cast; exact h)

/-- Claim C10 (amended): the envelope at frame 0 of a note is `0` whenever
the attack phase is at least one frame long (`int(df * attackFraction) ≥ 1`);
and at every frame of the sustain region (in particular its midpoint) the
envelope equals `sustain_level` exactly.  For short notes whose attack
truncates to zero frames the value at frame 0 is *not* ≈ 0 (see the
counterexample), contrary to the claim's parenthetical. -/
theorem claim_C10_amended_envelope (p : InstrumentParams) (df i : ℕ) :
    (1 ≤ pyint ((df : ℚ) * p.attack_time) → envelopeAt p df 0 = 0) ∧
    (0 ≤ p.attack_time → 0 ≤ p.decay_time →
      pyint ((df : ℚ) * p.attack_time) + pyint ((df : ℚ) * p.decay_time) ≤ (i : ℤ) →
      (i : ℤ) < (df : ℤ) - pyint ((df : ℚ) * p.release_time) →
      envelopeAt p df i = p.sustain_level) := by
  constructor
  · intro h
    have h0 : ((0 : ℕ) : ℤ) < pyint ((df : ℚ) * p.attack_time) := by push_cast; omega
    rw [envelopeAt, if_pos h0]
    norm_num
  · intro ha hd h1 h2
    have haT : 0 ≤ pyint ((df : ℚ) * p.attack_time) :=
      pyint_nonneg (mul_nonneg (by positivity) ha)
    have hdT : 0 ≤ pyint ((df : ℚ) * p.decay_time) :=
      pyint_nonneg (mul_nonneg (by positivity) hd)
    rw [envelopeAt, if_neg (by omega), if_neg (by omega), if_pos h2]

/-- Witness for claim C10 (amended) on the default profile and a one-second
note (44100 frames): attack is 882 frames so the envelope starts at `0`,
and at the sustain-region midpoint frame 17000 it equals `sustain_level`. -/
theorem claim_C10_amended_witness :
    (1 ≤ pyint (((44100 : ℕ) : ℚ) * default_params.attack_time) ∧
      envelopeAt default_params 44100 0 = 0) ∧
    (pyint (((44100 : ℕ) : ℚ) * default_params.attack_time) +
        pyint (((44100 : ℕ) : ℚ) * default_params.decay_time) ≤ ((17000 : ℕ) : ℤ) ∧
      ((17000 : ℕ) : ℤ) < ((44100 : ℕ) : ℤ) -
        pyint (((44100 : ℕ) : ℚ) * default_params.release_time) ∧
      envelopeAt default_params 44100 17000 = default_params.sustain_level) := by
  have ha : (1 : ℤ) ≤ pyint (((44100 : ℕ) : ℚ) * default_params.attack_time) := by
    norm_num [pyint, default_params]
  have hb : pyint (((44100 : ℕ) : ℚ) * default_params.attack_time) +
      pyint (((44100 : ℕ) : ℚ) * default_params.decay_time) ≤ ((17000 : ℕ) : ℤ) := by
    norm_num [pyint, default_params]
  have hc : ((17000 : ℕ) : ℤ) < ((44100 : ℕ) : ℤ) -
      pyint (((44100 : ℕ) : ℚ) * default_params.release_time) := by
    norm_num [pyint, default_params]
  exact ⟨⟨ha, (claim_C10_amended_envelope default_params 44100 17000).1 ha⟩,
         ⟨hb, hc, (claim_C10_amended_envelope default_params 44100 17000).2
            (by norm_num [default_params]) (by norm_num [default_params]) hb hc⟩⟩

/-- Claim C10 (counterexample): a short note of 20 frames under the default
profile has `int(20 * 0.02) = 0` attack frames and `int(20 * 0.08) = 1`
decay frames, so the envelope at frame 0 takes the decay branch and equals
`1`, not ≈ 0 — the claim fails exactly for the short notes its
parenthetical includes. -/
theorem claim_C10_counterexample_short_note_attack :
    envelopeAt default_params 20 0 = 1 ∧ (1 : ℚ) ≠ 0 := by
  constructor
  · norm_num [envelopeAt, pyint, default_params]
  · norm_num

theorem midiWriteLoop_write_add (s : ℚ → ℚ) (p : InstrumentParams) (freq vel : ℚ)
    (sf : ℤ) (df : ℕ) (tf : ℤ) (g : ℕ → ℚ) (hp : p.noise_level = 0) :
    ∀ (fuel i : ℕ) (buf c : ℤ → ℚ) (cnt cnt' : ℕ),
      (midiWriteLoop s p freq vel sf df tf g fuel i (fun j => buf j + c j, cnt)).1 =
        fun j => (midiWriteLoop s p freq vel sf df tf g fuel i (buf, cnt')).1 j + c j := by
  intro fuel
  induction fuel with
  | zero => intro i buf c cnt cnt'; rfl
  | succ fuel ih =>
    intro i buf c cnt cnt'
    rw [midiWriteLoop, midiWriteLoop]
    split
    · rfl
    · simp only [hp, zero_mul]
      have key : (fun j =>
          if j = sf + (i : ℤ) then
            (fun j' => buf j' + c j') j +
              toneAt s p freq (((sf : ℚ) + (i : ℚ)) / 44100) vel 0 *
                envelopeAt p df i * p.overall_amplitude
          else (fun j' => buf j' + c j') j) =
          fun j => (fun j' =>
            if j' = sf + (i : ℤ) then
              buf j' +
                toneAt s p freq (((sf : ℚ) + (i : ℚ)) / 44100) vel 0 *
                  envelopeAt p df i * p.overall_amplitude
            else buf j') j + c j := by
        funext j
        by_cases hj : j = sf + (i : ℤ) <;> simp [hj]
        ring
      rw [key]
      exact ih (i + 1)
        (fun j' =>
          if j' = sf + (i : ℤ) then
            buf j' +
              toneAt s p freq (((sf : ℚ) + (i : ℚ)) / 44100) vel 0 *
                envelopeAt p df i * p.overall_amplitude
          else buf j') c (cnt + 1) (cnt' + 1)

/-- The contribution a single event makes to a zeroed buffer, with a
zeroed noise stream. -/
def midiNoteContrib (s : ℚ → ℚ) (freqOf : ℤ → ℚ) (p : InstrumentParams)
    (tf : ℤ) (n : MidiNote) : ℤ → ℚ :=
  (midiNoteWrite s freqOf p tf (fun _ => 0) (fun _ => 0, 0) n).1

theorem midiNoteWrite_eq_add_contrib (s : ℚ → ℚ) (freqOf : ℤ → ℚ)
    (p : InstrumentParams) (tf : ℤ) (g : ℕ → ℚ) (hp : p.noise_level = 0)
    (st : (ℤ → ℚ) × ℕ) (n : MidiNote) :
    (midiNoteWrite s freqOf p tf g st n).1 =
      fun j => st.1 j + midiNoteContrib s freqOf p tf n j := by
  by_cases hv : n.velocity = 0
  · funext j
    simp [midiNoteWrite, midiNoteContrib, hv]
  · have h1 : midiNoteWrite s freqOf p tf g st n =
        midiNoteWrite s freqOf p tf (fun _ => 0) st n :=
      midiNoteWrite_noise_free s freqOf p tf g (fun _ => 0) hp st n
    rw [h1]
    simp only [midiNoteContrib, midiNoteWrite, if_neg hv]
    have hst : st = ((fun j => (fun _ => (0 : ℚ)) j + st.1 j), st.2) := by
      obtain ⟨b, c⟩ := st
      simp
    conv =>
      lhs
      rw [hst]
    rw [midiWriteLoop_write_add s p (freqOf (n.note : ℤ)) ((n.velocity : ℚ) / 127)
      (pyint (n.start_time * 44100)) (pyint (n.duration * 44100)).toNat tf
      (fun _ => 0) hp (pyint (n.duration * 44100)).toNat 0 (fun _ => 0) st.1 st.2 0]
    funext j
    ring

/-- The pointwise sum of the contributions of a list of events. -/
def midiSumContrib (s : ℚ → ℚ) (freqOf : ℤ → ℚ) (p : InstrumentParams)
    (tf : ℤ) (notes : List MidiNote) (j : ℤ) : ℚ :=
  (notes.map (fun n => midiNoteContrib s freqOf p tf n j)).sum

theorem midiSynth_foldl_eq_add_sum (s : ℚ → ℚ) (freqOf : ℤ → ℚ)
    (p : InstrumentParams) (tf : ℤ) (g : ℕ → ℚ) (hp : p.noise_level = 0)
    (notes : List MidiNote) :
    ∀ st : (ℤ → ℚ) × ℕ,
      (notes.foldl (midiNoteWrite s freqOf p tf g) st).1 =
        fun j => st.1 j + midiSumContrib s freqOf p tf notes j := by
  induction notes with
  | nil =>
    intro st
    funext j
    simp [midiSumContrib]
  | cons n ns ih =>
    intro st
    rw [List.foldl_cons, ih (midiNoteWrite s freqOf p tf g st n)]
    funext j
    rw [midiNoteWrite_eq_add_contrib s freqOf p tf g hp st n]
    simp only [midiSumContrib, List.map_cons, List.sum_cons]
    ring

theorem foldl_max_le_self (xs : List ℚ) : ∀ x0 : ℚ, x0 ≤ xs.foldl max x0 := by
  induction xs with
  | nil => intro x0; exact le_refl _
  | cons y ys ih =>
    intro x0
    exact le_trans (le_max_left x0 y) (ih (max x0 y))

theorem le_foldl_max_of_mem (xs : List ℚ) :
    ∀ (x0 x : ℚ), x ∈ xs → x ≤ xs.foldl max x0 := by
  induction xs with
  | nil => intro x0 x hx; cases hx
  | cons y ys ih =>
    intro x0 x hx
    rcases List.mem_cons.mp hx with h | h
    · subst h
      exact le_trans (le_max_right x0 x) (foldl_max_le_self ys (max x0 x))
    · exact ih (max x0 y) x h

theorem foldl_max_eq_or_mem (xs : List ℚ) :
    ∀ x0 : ℚ, xs.foldl max x0 = x0 ∨ xs.foldl max x0 ∈ xs := by
  induction xs with
  | nil => intro x0; exact Or.inl rfl
  | cons y ys ih =>
    intro x0
    rcases ih (max x0 y) with h | h
    · rcases max_choice x0 y with hm | hm
      · exact Or.inl (by rw [List.foldl_cons, h, hm])
      · exact Or.inr (by rw [List.foldl_cons, h, hm]; exact List.mem_cons_self y ys)
    · exact Or.inr (List.mem_cons_of_mem y h)

theorem pymax_mem {l : List ℚ} (h : l ≠ []) : pymax l ∈ l := by
  match l with
  | [] => exact absurd rfl h
  | x :: xs =>
    rcases foldl_max_eq_or_mem xs x with h1 | h1
    · rw [pymax, h1]; exact List.mem_cons_self x xs
    · rw [pymax]; exact List.mem_cons_of_mem x h1

theorem le_pymax_of_mem {l : List ℚ} {x : ℚ} (h : x ∈ l) : x ≤ pymax l := by
  match l with
  | [] => cases h
  | y :: ys =>
    rcases List.mem_cons.mp h with h1 | h1
    · subst h1; exact foldl_max_le_self ys x
    · exact le_foldl_max_of_mem ys y x h1

theorem pymax_perm {l1 l2 : List ℚ} (h : l1.Perm l2) : pymax l1 = pymax l2 := by
  match l1, l2 with
  | [], l2 =>
    rw [h.nil_eq]
  | x :: xs, l2 =>
    have h1 : l2 ≠ [] := by
      intro hc; subst hc; exact absurd h.symm.nil_eq (by simp)
    apply le_antisymm
    · exact le_pymax_of_mem (h.mem_iff.mp (pymax_mem (by simp)))
    · exact le_pymax_of_mem (h.mem_iff.mpr (pymax_mem h1))

theorem midiTotalFrames_perm {notes1 notes2 : List MidiNote} (h : notes1.Perm notes2) :
    midiTotalFrames notes1 = midiTotalFrames notes2 := by
  unfold midiTotalFrames
  rw [pymax_perm (h.map (fun n => n.start_time + n.duration))]

/-- Claim C6 (amended): in the artifact-based synthesizer every buffer
write accumulates (`audio_data[start_frame + i] += ...`), so — with the
noise term zeroed, as the claim's parenthetical allows — the resulting
buffer is a pointwise sum of per-event contributions and is independent
of the order in which events are processed.  In the fallback synthesizer
(`_create_musical_wav_from_notes`) the write *assigns* and notes are laid
out sequentially at a running cursor, so the buffer depends on the event
order (see the counterexample). -/
theorem claim_C6_amended_direct_additive_perm
    (s : ℚ → ℚ) (freqOf : ℤ → ℚ) (p : InstrumentParams) (g g' : ℕ → ℚ)
    (notes1 notes2 : List MidiNote) (hp : p.noise_level = 0)
    (hperm : notes1.Perm notes2) :
    (midiSynthCore s freqOf p notes1 g).1 = (midiSynthCore s freqOf p notes2 g').1 := by
  unfold midiSynthCore
  rw [midiTotalFrames_perm hperm]
  rw [midiSynth_foldl_eq_add_sum s freqOf p (midiTotalFrames notes2) g hp notes1,
      midiSynth_foldl_eq_add_sum s freqOf p (midiTotalFrames notes2) g' hp notes2]
  funext j
  unfold midiSumContrib
  rw [List.Perm.sum_eq (hperm.map (fun n => midiNoteContrib s freqOf p (midiTotalFrames notes2) n j))]

/-- Witness for claim C6 (amended): with a zero-noise profile, swapping the
two events of a concrete list leaves the direct-mode buffer unchanged,
even with different noise streams. -/
theorem claim_C6_amended_witness :
    ({ default_params with noise_level := 0 } : InstrumentParams).noise_level = 0 ∧
    ([⟨60, 100, 0, 1/44100, 0⟩, ⟨62, 100, 0, 2/44100, 0⟩] : List MidiNote).Perm
      [⟨62, 100, 0, 2/44100, 0⟩, ⟨60, 100, 0, 1/44100, 0⟩] ∧
    (midiSynthCore (fun x => x) (fun z => (z : ℚ)) { default_params with noise_level := 0 }
        [⟨60, 100, 0, 1/44100, 0⟩, ⟨62, 100, 0, 2/44100, 0⟩] (fun _ => 0)).1 =
      (midiSynthCore (fun x => x) (fun z => (z : ℚ)) { default_params with noise_level := 0 }
        [⟨62, 100, 0, 2/44100, 0⟩, ⟨60, 100, 0, 1/44100, 0⟩] (fun _ => 1)).1 :=
  ⟨rfl, List.Perm.swap _ _ _,
    claim_C6_amended_direct_additive_perm (fun x => x) (fun z => (z : ℚ))
      { default_params with noise_level := 0 } (fun _ => 0) (fun _ => 1)
      _ _ rfl (List.Perm.swap _ _ _)⟩

/-- Claim C6 (counterexample): in the fallback synthesizer the buffer is
*not* independent of event processing order: two "Piano" notes of 1 and 2
frames produce different values at buffer frame 2 depending on their
order, because each write assigns into a region chosen by the running
cursor (line `audio_data[current_frame + i] = ...`), so the claim's
"every write is additive, hence order-independent" fails for this
synthesis path. -/
theorem claim_C6_counterexample_fallback_order :
    (fallback_synth (fun x => x) (fun z => (z : ℚ)) "Piano"
        [⟨some 60, 1/44100, "note"⟩, ⟨some 62, 2/44100, "note"⟩] 60 (fun _ => 0)).buf 2 ≠
    (fallback_synth (fun x => x) (fun z => (z : ℚ)) "Piano"
        [⟨some 62, 2/44100, "note"⟩, ⟨some 60, 1/44100, "note"⟩] 60 (fun _ => 0)).buf 2 := by
  have hp : get_instrument_parameters "Piano" = piano_params := by
    simp [get_instrument_parameters]
  simp [fallback_synth, musicalSynthCore, musicalNoteWrite, musicalWriteLoop,
    hp, piano_params, default_params, toneAt, envelopeAt, pyint,
    show Int.toNat 1 = 1 from rfl, show Int.toNat 2 = 2 from rfl]
  norm_num

/-- The dictionary returned by `render_staff_to_midi`.  Python dicts carry
only the keys they were built with, so every field is an `Option`; a
missing key is `none`.  The success dict of the source also carries
`midi_path`, `wav_path` and `audio_base64`; those are
filesystem/encoding artefacts outside this model and are omitted. -/
structure RenderResult where
  success : Option Bool := none
  tempo : Option ℚ := none
  duration : Option ℚ := none
  instrument : Option String := none
  error : Option String := none
deriving DecidableEq

/-- The environment a render call observes: the LilyPond subprocess
return code and stderr, whether the `.mid` file exists afterwards, the
parse outcome of the MIDI artifact (`.error` when `mido` is unavailable
or parsing raises), the staff used by the fallback, and an injected
unexpected exception (`some message`) raised inside the `try` body of
`render_staff_to_midi`, modelling an arbitrary failure at the
synthesize/filter/encode stages. -/
structure RenderEnv where
  lilypond_rc : ℤ
  lilypond_stderr : String
  midi_file_exists : Bool
  artifact : Except Unit (ℕ × List (List MidiMsg))
  staff : List StaffComponent
  unexpected : Option String

/-- `_convert_midi_to_wav_direct`, reduced to its observable outcome:
`False` (`none`) when extraction yields no events, otherwise it writes a
WAV of `total_frames` frames and returns `True`. -/
def convert_midi_to_wav_direct_frames
    (artifact : Except Unit (ℕ × List (List MidiMsg))) : Option ℕ :=
  let notes := extract_midi_notes artifact
  if notes = [] then none else some (midiTotalFrames notes).toNat

/-- The frame count written by `_create_musical_wav_from_notes`:
`int((total_duration / (tempo / 60)) * 44100)` with
`total_duration = sum(note['duration'])`. -/
def musicalTotalFrames (notes_data : List StaffNote) (tempo : ℚ) : ℕ :=
  (pyint ((((notes_data.map (fun n => n.duration)).sum) / (tempo / 60)) * 44100)).toNat

/-- `_convert_midi_to_wav_with_staff` composed with
`_create_instrument_synthesis_fallback`: try the direct conversion; on
failure extract from the staff; an empty staff extraction falls through
to `_create_simple_wav(wav_path, 2.0)` whose value — the function has no
`return` statement — is Python `None`, modelled as `none`.  The second
component is the number of frames written to the WAV file. -/
def convert_midi_to_wav_with_staff
    (artifact : Except Unit (ℕ × List (List MidiMsg)))
    (staff : List StaffComponent) (tempo : ℚ) : Option Bool × ℕ :=
  match convert_midi_to_wav_direct_frames artifact with
  | some fr => (some true, fr)
  | none =>
    let notes_data := extract_notes_from_staff staff
    if notes_data = [] then (none, (pyint ((2 : ℚ) * 44100)).toNat)
    else (some true, musicalTotalFrames notes_data tempo)

/-- The `try` body of `render_staff_to_midi`: check the LilyPond return
code, check the `.mid` file exists, convert, and on a truthy
`wav_success` report success with the duration read back from the WAV
file; otherwise return the corresponding error dict.  An injected
unexpected exception escapes as `.error`. -/
def render_body (env : RenderEnv) (tempo : ℚ) (instrument : String) :
    Except String RenderResult :=
  match env.unexpected with
  | some m => .error m
  | none =>
    if env.lilypond_rc = 0 then
      if env.midi_file_exists then
        if (convert_midi_to_wav_with_staff env.artifact env.staff tempo).1 = some true then
          .ok { success := some true, tempo := some tempo,
                duration := some
                  (get_wav_duration (convert_midi_to_wav_with_staff env.artifact env.staff tempo).2 44100),
                instrument := some instrument }
        else .ok { error := some "Failed to convert MIDI to WAV" }
      else .ok { error := some "MIDI file not found" }
    else
      .ok { error := some ("LilyPond failed with return code " ++
        toString env.lilypond_rc ++ ": " ++ env.lilypond_stderr) }

/-- `render_staff_to_midi`: the whole body runs inside
`try ... except Exception as e: return {'error': f'Audio generation failed: {e}'}`,
so every exception is converted into an error dict. -/
def render_staff_to_midi (env : RenderEnv) (tempo : ℚ) (instrument : String) :
    RenderResult :=
  match render_body env tempo instrument with
  | .ok r => r
  | .error m => { error := some ("Audio generation failed: " ++ m) }

/-- Claim C2 (amended): any unexpected exception inside the render body is
caught and converted into a result dict carrying an error string — but
*no* `success` key at all (`success = none`), rather than an explicit
`success: false`; callers reading `result.get('success', False)` treat
the missing key as falsy.  Every render returns either
`success = some true` with no error, or `success = none` with an error
string: no exception propagates past the facade. -/
theorem claim_C2_amended_error_result :
    (∀ (env : RenderEnv) (tempo : ℚ) (instrument : String) (m : String),
      render_staff_to_midi { env with unexpected := some m } tempo instrument =
        { error := some ("Audio generation failed: " ++ m) }) ∧
    (∀ (env : RenderEnv) (tempo : ℚ) (instrument : String),
      ((render_staff_to_midi env tempo instrument).success = some true ∧
        (render_staff_to_midi env tempo instrument).error = none) ∨
      ((render_staff_to_midi env tempo instrument).success = none ∧
        ∃ msg, (render_staff_to_midi env tempo instrument).error = some msg)) := by
  constructor
  · intro env tempo instrument m
    rfl
  · intro env tempo instrument
    unfold render_staff_to_midi render_body
    rcases h : env.unexpected with _ | m
    · simp only [h]
      split_ifs with h1 h2 h3 <;> simp
    · simp only [h]
      simp

/-- Claim C2 (counterexample): when an unexpected exception `"boom"` is
raised in the body, the result dict contains the error string but no
`success` key (`success = none`), so it does not contain
`success = false` as the claim states. -/
theorem claim_C2_counterexample_no_success_field :
    (render_staff_to_midi ⟨0, "", true, .error (), [], some "boom"⟩ 120 "Piano").success
      = none ∧
    (render_staff_to_midi ⟨0, "", true, .error (), [], some "boom"⟩ 120 "Piano").success
      ≠ some false ∧
    (render_staff_to_midi ⟨0, "", true, .error (), [], some "boom"⟩ 120 "Piano").error
      = some "Audio generation failed: boom" := by
  refine ⟨rfl, ?_, rfl⟩
  intro h
  exact Option.noConfusion h

/-- Claim C3 (amended): when the MIDI artifact parses but yields zero note
events, `_extract_midi_notes` injects the single placeholder event
(middle C, pitch 60, velocity 100, duration 1.0 s) and the render
succeeds — but the reported duration is 1.5 s (the 1.0 s placeholder plus
the 0.5 s tail margin of `total_duration = max_time + 0.5`), not ≈ 1.0 s.
When the artifact cannot be parsed at all *and* the score is also empty,
the render instead fails (see the counterexample), so the placeholder
only guards the parsed-but-empty path. -/
theorem claim_C3_amended_placeholder_path
    (env : RenderEnv) (tempo : ℚ) (instrument : String)
    (tpb : ℕ) (tracks : List (List MidiMsg))
    (hu : env.unexpected = none) (hrc : env.lilypond_rc = 0)
    (hm : env.midi_file_exists = true)
    (ha : env.artifact = .ok (tpb, tracks))
    (hz : (processTracks tpb tracks).notes = []) :
    (render_staff_to_midi env tempo instrument).success = some true ∧
    (render_staff_to_midi env tempo instrument).duration = some (3/2) := by
  have hext : extract_midi_notes env.artifact = [⟨60, 100, 0, 1, 0⟩] := by
    rw [ha]
    simp [extract_midi_notes, hz]
  have htot : midiTotalFrames [⟨60, 100, 0, 1, 0⟩] = 66150 := by
    norm_num [midiTotalFrames, pymax, pyint]
  have hconv : convert_midi_to_wav_with_staff env.artifact env.staff tempo =
      (some true, 66150) := by
    simp [convert_midi_to_wav_with_staff, convert_midi_to_wav_direct_frames, hext, htot]
  have hdur : get_wav_duration 66150 44100 = 3/2 := by
    norm_num [get_wav_duration, pyround1, roundHalfEven]
  unfold render_staff_to_midi render_body
  simp only [hu, hrc, hm, hconv, hdur]
  simp

/-- Witness for claim C3 (amended): a successfully parsed artifact with no
tracks at all — extraction yields zero events, the placeholder kicks in
and the render reports success with duration 1.5 s. -/
theorem claim_C3_amended_witness :
    (⟨0, "", true, .ok (480, []), [], none⟩ : RenderEnv).unexpected = none ∧
    (processTracks 480 []).notes = [] ∧
    (render_staff_to_midi ⟨0, "", true, .ok (480, []), [], none⟩ 120 "Piano").success
      = some true ∧
    (render_staff_to_midi ⟨0, "", true, .ok (480, []), [], none⟩ 120 "Piano").duration
      = some (3/2) := by
  have h := claim_C3_amended_placeholder_path ⟨0, "", true, .ok (480, []), [], none⟩
    120 "Piano" 480 [] rfl rfl rfl rfl rfl
  exact ⟨rfl, rfl, h.1, h.2⟩

/-- Claim C3 (counterexample): the claim fails in both directions.  On the
parsed-but-empty path the render succeeds but reports duration `3/2`
(1.5 s), not ≈ 1.0 s.  And when both extraction modes yield zero events —
artifact unparseable (e.g. `mido` missing) *and* empty score — the
placeholder never applies: `_create_simple_wav` returns `None`, the
facade treats it as failure, and the empty input *is* surfaced to the
caller as an error, contradicting "empty input is never surfaced to the
caller as a failure". -/
theorem claim_C3_counterexample_placeholder_duration :
    (render_staff_to_midi ⟨0, "", true, .ok (480, []), [], none⟩ 120 "Piano").duration
      = some (3/2) ∧
    (3/2 : ℚ) ≠ 1 ∧
    (render_staff_to_midi ⟨0, "", true, .error (), [], none⟩ 120 "Piano").success
      = none ∧
    (render_staff_to_midi ⟨0, "", true, .error (), [], none⟩ 120 "Piano").error
      = some "Failed to convert MIDI to WAV" := by
  refine ⟨?_, by norm_num, ?_, ?_⟩
  · have htot : midiTotalFrames [⟨60, 100, 0, 1, 0⟩] = 66150 := by
      norm_num [midiTotalFrames, pymax, pyint]
    have hdur : get_wav_duration 66150 44100 = 3/2 := by
      norm_num [get_wav_duration, pyround1, roundHalfEven]
    simp [render_staff_to_midi, render_body, convert_midi_to_wav_with_staff,
      convert_midi_to_wav_direct_frames, extract_midi_notes, processTracks, htot, hdur]
  · simp [render_staff_to_midi, render_body, convert_midi_to_wav_with_staff,
      convert_midi_to_wav_direct_frames, extract_midi_notes, extract_notes_from_staff]
  · simp [render_staff_to_midi, render_body, convert_midi_to_wav_with_staff,
      convert_midi_to_wav_direct_frames, extract_midi_notes, extract_notes_from_staff]
